import Mathlib

/-!
# go-app-v1 : the HTTP handler chain of `main.go`

A shallow embedding of `src/go-app-v1/main.go`.  The functions of the source
(`allowCORS`, `preflightHandler`, `withLogger`, `JSONResponse`, the route
closure and the tail of `main`) are Lean functions over an explicit `World`
that carries the `http.ResponseWriter` and the process log.

The standard-library pieces the source calls are modelled from their documented
behaviour:

* `http.Header` : a map from canonical keys to value lists.  Every key the
  source passes to `Get` and `Set` is already in canonical form, so
  canonicalisation is the identity at each call site.
* `http.ResponseWriter` (the server's `*http.response`) : the first final
  `WriteHeader` fixes the status and snapshots the header map, later calls are
  superfluous, an out-of-range code panics, a 1xx code other than 101 is sent
  as an interim response, `Write` implies `WriteHeader(200)` and refuses a body
  for 1xx, 204 and 304.  Headers the server adds on the wire (`Date`,
  `Content-Length`, a sniffed `Content-Type`) and the suppression of the body
  of a `HEAD` response are transport concerns and are not part of the model:
  a `Response` is what the handler chain produced.  A `Content-Length` set by a
  handler (which would bound the body) is not interpreted.
* `json.NewEncoder(w).Encode` : marshals first and writes the text followed by
  a newline in one `Write`; nothing is written when marshalling fails.
* `http.ServeMux` : the registered pattern is a plain path, matched exactly;
  the request-target `*` is answered 400, a path that is not in clean form is
  redirected to its clean form, anything else gets the not-found handler.
* `errors.Is` : identity with the target along the `Unwrap` chain.
-/

namespace GoApp

/-! ## Headers -/

/-- The Go type `http.Header`: canonical key, list of values. -/
abbrev Header := List (String × List String)

/-- The map lookup `h[key]`. -/
def Header.values : Header → String → Option (List String)
  | [], _ => none
  | (k', vs) :: t, k => if k' = k then some vs else Header.values t k

/-- The method `Header.Get`: first value under the key, or the empty string. -/
def Header.Get (h : Header) (k : String) : String :=
  match Header.values h k with
  | some (v :: _) => v
  | _ => ""

/-- The method `Header.Set`: the key now maps to the single value. -/
def Header.Set : Header → String → String → Header
  | [], k, v => [(k, [v])]
  | (k', vs) :: t, k, v => if k' = k then (k, [v]) :: t else (k', vs) :: Header.Set t k v

/-- The method `Header.Del`: the key maps to nothing. -/
def Header.Del : Header → String → Header
  | [], _ => []
  | (k', vs) :: t, k => if k' = k then Header.Del t k else (k', vs) :: Header.Del t k

/-! ## Requests -/

/-- The fields of `url.URL` that the program reads. -/
structure URL where
  Path : String
  RawQuery : String
  deriving DecidableEq, Repr

/-- The fields of `http.Request` that the program reads. -/
structure Request where
  Method : String
  URL : URL
  Header : Header
  ProtoMajor : Nat := 1
  ProtoMinor : Nat := 1
  deriving DecidableEq, Repr

/-! ## Errors and log records -/

/-- Go error values: the sentinel `http.ErrServerClosed`, an error without
`Unwrap`, and an error that wraps another one. -/
inductive GoError where
  | ErrServerClosed
  | other (msg : String)
  | wrap (msg : String) (inner : GoError)
  deriving DecidableEq, Repr

/-- The function `errors.Is`: the error or one in its `Unwrap` chain is the target. -/
def errorsIs : GoError → GoError → Bool
  | .wrap msg inner, target =>
      decide (GoError.wrap msg inner = target) || errorsIs inner target
  | e, target => decide (e = target)

/-- Severity of a `slog` record. -/
inductive LogLevel where
  | Info
  | Error
  deriving DecidableEq, Repr

/-- Attribute values the program logs. -/
inductive LogValue where
  | str (s : String)
  | url (u : URL)
  | err (e : GoError)
  deriving DecidableEq, Repr

/-- One record handed to the default `slog` logger. -/
structure LogRecord where
  level : LogLevel
  msg : String
  attrs : List (String × LogValue)
  deriving DecidableEq, Repr

/-! ## The response writer -/

/-- State of the server's `http.ResponseWriter` for one request. -/
structure ResponseWriter where
  /-- the live map returned by `Header()` -/
  header : Header
  /-- a final status line has been written -/
  wroteHeader : Bool
  /-- the status of that line -/
  status : Int
  /-- the header map as it was when the status line was written -/
  sentHeader : Header
  /-- interim (1xx) status lines sent so far -/
  interim : List Int
  /-- body bytes written so far -/
  body : String
  deriving DecidableEq, Repr

/-- What a handler acts on: the writer, the log, and a pending panic. -/
structure World where
  w : ResponseWriter
  logs : List LogRecord
  panicked : Option String
  deriving DecidableEq, Repr

/-- A Go `http.Handler`: `ServeHTTP(w, r)` as a transformer of the world. -/
abbrev Handler := Request → World → World

/-- The writer the server hands to the handler chain for a new request. -/
def ResponseWriter.fresh : ResponseWriter :=
  { header := [], wroteHeader := false, status := 0, sentHeader := [], interim := [], body := "" }

/-- A new request arriving while the log holds `logs`. -/
def World.fresh (logs : List LogRecord) : World :=
  { w := ResponseWriter.fresh, logs := logs, panicked := none }

def StatusOK : Int := 200
def StatusSwitchingProtocols : Int := 101
def StatusNoContent : Int := 204
def StatusNotModified : Int := 304
def StatusTemporaryRedirect : Int := 307
def StatusBadRequest : Int := 400
def StatusNotFound : Int := 404
def StatusInternalServerError : Int := 500

/-- The call `w.Header().Set(k, v)`. -/
def World.headerSet (s : World) (k v : String) : World :=
  { s with w := { s.w with header := Header.Set s.w.header k v } }

/-- The call `w.Header().Del(k)`. -/
def World.headerDel (s : World) (k : String) : World :=
  { s with w := { s.w with header := Header.Del s.w.header k } }

/-- The call `slog.Info(msg, args...)`. -/
def World.slogInfo (s : World) (msg : String) (attrs : List (String × LogValue)) : World :=
  { s with logs := s.logs ++ [{ level := .Info, msg := msg, attrs := attrs }] }

/-- The method `WriteHeader(code)` of the server's response writer. -/
def World.WriteHeader (s : World) (code : Int) : World :=
  if s.w.wroteHeader then s
  else if code < 100 ∨ code > 999 then
    { s with panicked := some ("invalid WriteHeader code " ++ toString code) }
  else if 100 ≤ code ∧ code ≤ 199 ∧ code ≠ StatusSwitchingProtocols then
    { s with w := { s.w with interim := s.w.interim ++ [code] } }
  else
    { s with w := { s.w with wroteHeader := true, status := code, sentHeader := s.w.header } }

/-- The net/http helper `bodyAllowedForStatus`. -/
def bodyAllowedForStatus (status : Int) : Bool :=
  if 100 ≤ status ∧ status ≤ 199 then false
  else if status = StatusNoContent then false
  else if status = StatusNotModified then false
  else true

/-- Text of `http.ErrBodyNotAllowed`. -/
def ErrBodyNotAllowed : String :=
  "http: request method or response status code does not allow body"

/-- The method `Write(data)`: the new world and the error it returns, if any. -/
def World.Write (s : World) (data : String) : World × Option String :=
  let s1 := if s.w.wroteHeader then s else s.WriteHeader StatusOK
  if data.length = 0 then (s1, none)
  else if !bodyAllowedForStatus s1.w.status then (s1, some ErrBodyNotAllowed)
  else ({ s1 with w := { s1.w with body := s1.w.body ++ data } }, none)

/-- What the client is answered once the handler chain has returned. -/
structure Response where
  status : Int
  header : Header
  body : String
  deriving DecidableEq, Repr

/-- The server's end of request: a handler that wrote no status line gets the
implicit 200; a handler that panicked gets no response (the connection is
dropped). -/
def finishRequest (s : World) : Option Response :=
  match s.panicked with
  | some _ => none
  | none =>
    let s1 := if s.w.wroteHeader then s else s.WriteHeader StatusOK
    some { status := s1.w.status, header := s1.w.sentHeader, body := s1.w.body }

/-! ## encoding/json -/

/-- Go values that can be handed to `JSONResponse` as `data interface{}`. -/
inductive GoValue where
  | nil
  | bool (b : Bool)
  | int (n : Int)
  | string (s : String)
  | slice (xs : List GoValue)
  | map (kvs : List (String × GoValue))
  | chan (elemType : String)
  | func (signature : String)

/-- Upper-case-free hexadecimal digit, as in the encoder's table `hex`. -/
def hexDigit (n : Nat) : Char :=
  if n < 10 then Char.ofNat (48 + n) else Char.ofNat (87 + n)

/-- How the encoder writes one character of a string (HTML escaping on, the
default of `json.Encoder`). -/
def escapeChar (c : Char) : List Char :=
  if c = '"' then ['\\', '"']
  else if c = '\\' then ['\\', '\\']
  else if c = '\n' then ['\\', 'n']
  else if c = '\r' then ['\\', 'r']
  else if c = '\t' then ['\\', 't']
  else if c.toNat = 8 then ['\\', 'b']
  else if c.toNat = 12 then ['\\', 'f']
  else if c.toNat < 32 ∨ c = '<' ∨ c = '>' ∨ c = '&' then
    ['\\', 'u', '0', '0', hexDigit (c.toNat / 16), hexDigit (c.toNat % 16)]
  else if c.toNat = 8232 then ['\\', 'u', '2', '0', '2', '8']
  else if c.toNat = 8233 then ['\\', 'u', '2', '0', '2', '9']
  else [c]

/-- A Go string as a quoted JSON string. -/
def encodeString (s : String) : String :=
  "\"" ++ String.mk (s.toList.flatMap escapeChar) ++ "\""

/-- Go's order on strings: bytewise, which for UTF-8 text is the lexicographic
order of the code points. -/
def stringLess : List Char → List Char → Bool
  | _, [] => false
  | [], _ :: _ => true
  | a :: as, b :: bs =>
      if a.toNat < b.toNat then true
      else if b.toNat < a.toNat then false
      else stringLess as bs

/-- Insert a rendered map entry by key order. -/
def insertByKey (kv : String × Except String String) :
    List (String × Except String String) → List (String × Except String String)
  | [] => [kv]
  | kv' :: rest =>
      if stringLess kv.1.toList kv'.1.toList then kv :: kv' :: rest
      else kv' :: insertByKey kv rest

/-- Rendered map entries in key order: the encoder writes map keys sorted. -/
def sortByKey : List (String × Except String String) → List (String × Except String String)
  | [] => []
  | kv :: rest => insertByKey kv (sortByKey rest)

/-- Comma-separated elements of an array, or the first error among them. -/
def joinElems : List (Except String String) → Except String String
  | [] => .ok ""
  | [x] => x
  | x :: y :: rest =>
      match x, joinElems (y :: rest) with
      | .error e, _ => .error e
      | .ok _, .error e => .error e
      | .ok a, .ok b => .ok (a ++ "," ++ b)

mutual
/-- The function `json.Marshal`: the JSON text, or the error message. -/
def jsonMarshal : GoValue → Except String String
  | .nil => .ok "null"
  | .bool b => .ok (if b then "true" else "false")
  | .int n => .ok (toString n)
  | .string s => .ok (encodeString s)
  | .slice xs =>
      match joinElems (marshalElems xs) with
      | .ok t => .ok ("[" ++ t ++ "]")
      | .error e => .error e
  | .map kvs =>
      match joinElems ((sortByKey (marshalMembers kvs)).map
              (fun kv => match kv.2 with
                | .ok t => .ok (encodeString kv.1 ++ ":" ++ t)
                | .error e => .error e)) with
      | .ok t => .ok ("\x7b" ++ t ++ "\x7d")
      | .error e => .error e
  | .chan elemType => .error ("json: unsupported type: chan " ++ elemType)
  | .func signature => .error ("json: unsupported type: " ++ signature)
/-- Each element of a slice marshalled. -/
def marshalElems : List GoValue → List (Except String String)
  | [] => []
  | x :: rest => jsonMarshal x :: marshalElems rest
/-- Each value of a map marshalled, with its key. -/
def marshalMembers : List (String × GoValue) → List (String × Except String String)
  | [] => []
  | (k, x) :: rest => (k, jsonMarshal x) :: marshalMembers rest
end

/-- The call `json.NewEncoder(w).Encode(data)`: marshal, then write the text
and a newline; the error returned is the marshalling error or the write error. -/
def jsonEncode (s : World) (data : GoValue) : World × Option String :=
  match jsonMarshal data with
  | .error e => (s, some e)
  | .ok text => s.Write (text ++ "\n")

/-! ## net/http helpers -/

/-- The function `http.Error(w, msg, code)` (it drops a `Content-Length` set for
other content since Go 1.23; earlier versions lack that first step). -/
def httpError (s : World) (msg : String) (code : Int) : World :=
  let s0 := s.headerDel "Content-Length"
  let s1 := s0.headerSet "Content-Type" "text/plain; charset=utf-8"
  let s2 := s1.headerSet "X-Content-Type-Options" "nosniff"
  let s3 := s2.WriteHeader code
  if s3.panicked.isSome then s3 else (s3.Write (msg ++ "\n")).1

/-- The function `http.NotFound`. -/
def httpNotFound : Handler :=
  fun _ s => httpError s "404 page not found" StatusNotFound

/-- Split a path at its slashes; `cur` holds the segment being read, last
character first. -/
def splitSlash : List Char → List Char → List (List Char)
  | [], cur => [cur.reverse]
  | c :: cs, cur => if c = '/' then cur.reverse :: splitSlash cs [] else splitSlash cs (c :: cur)

/-- The segments that `path.Clean` keeps of a rooted path: empty and `.`
segments go, a `..` segment takes the segment before it along (or goes alone at
the root).  `stack` holds the segments kept so far, last first. -/
def cleanSegments : List (List Char) → List (List Char) → List (List Char)
  | [], stack => stack.reverse
  | seg :: rest, stack =>
      if seg = [] ∨ seg = ['.'] then cleanSegments rest stack
      else if seg = ['.', '.'] then cleanSegments rest stack.tail
      else cleanSegments rest (seg :: stack)

/-- Segments joined again, each behind a slash. -/
def joinSegments : List (List Char) → List Char
  | [] => []
  | seg :: rest => '/' :: (seg ++ joinSegments rest)

/-- The function `path.Clean` on a rooted path. -/
def pathCleanRooted (p : List Char) : List Char :=
  match joinSegments (cleanSegments (splitSlash p []) []) with
  | [] => ['/']
  | np => np

/-- The net/http helper `cleanPath`: the canonical form of a request path, with
a trailing slash kept. -/
def cleanPath (p : String) : String :=
  match p.toList with
  | [] => "/"
  | c :: cs =>
    let p1 := if c = '/' then c :: cs else '/' :: c :: cs
    let np := pathCleanRooted p1
    if p1.getLast? = some '/' ∧ np ≠ ['/'] then String.mk (np ++ ['/']) else String.mk np

/-- The net/http helper `htmlEscape`. -/
def htmlEscape (t : String) : String :=
  String.mk (t.toList.flatMap (fun c =>
    if c = '&' then "&amp;".toList
    else if c = '<' then "&lt;".toList
    else if c = '>' then "&gt;".toList
    else if c.toNat = 34 then "&#34;".toList
    else if c.toNat = 39 then "&#39;".toList
    else [c]))

/-- The UTF-8 bytes of a code point. -/
def utf8Bytes (n : Nat) : List Nat :=
  if n < 128 then [n]
  else if n < 2048 then [192 + n / 64, 128 + n % 64]
  else if n < 65536 then [224 + n / 4096, 128 + n / 64 % 64, 128 + n % 64]
  else [240 + n / 262144, 128 + n / 4096 % 64, 128 + n / 64 % 64, 128 + n % 64]

/-- The net/http helper `hexEscapeNonASCII`: bytes outside ASCII as percent
escapes. -/
def hexEscapeNonASCII (t : String) : String :=
  String.mk (t.toList.flatMap (fun c =>
    if c.toNat < 128 then [c]
    else (utf8Bytes c.toNat).flatMap (fun b => ['%', hexDigit (b / 16), hexDigit (b % 16)])))

/-- The function `http.StatusText` on the redirect codes. -/
def statusText (code : Int) : String :=
  if code = 301 then "Moved Permanently"
  else if code = 302 then "Found"
  else if code = 303 then "See Other"
  else if code = 307 then "Temporary Redirect"
  else if code = 308 then "Permanent Redirect"
  else ""

/-- The function `http.Redirect(w, r, url, code)` for a rooted target without
scheme and host, which is what the multiplexer passes: the path part of the
target is cleaned (a trailing slash kept), `Location` is set, a GET or HEAD
without a `Content-Type` of its own gets one, and a GET gets a short body. -/
def httpRedirect (r : Request) (s : World) (url : String) (code : Int) : World :=
  let pathPart := url.toList.takeWhile (fun c => c ≠ '?')
  let query := url.toList.dropWhile (fun c => c ≠ '?')
  let cleaned := pathCleanRooted pathPart
  let cleaned1 :=
    if pathPart.getLast? = some '/' ∧ cleaned.getLast? ≠ some '/' then cleaned ++ ['/']
    else cleaned
  let target := String.mk (cleaned1 ++ query)
  let hadCT := (Header.values s.w.header "Content-Type").isSome
  let s1 := s.headerSet "Location" (hexEscapeNonASCII target)
  let s2 :=
    if !hadCT ∧ (r.Method = "GET" ∨ r.Method = "HEAD") then
      s1.headerSet "Content-Type" "text/html; charset=utf-8"
    else s1
  let s3 := s2.WriteHeader code
  if s3.panicked.isSome then s3
  else if !hadCT ∧ r.Method = "GET" then
    (s3.Write ("<a href=\"" ++ htmlEscape target ++ "\">" ++ statusText code ++ "</a>.\n"
      ++ "\n")).1
  else s3

/-- The handler registered for exactly this path, if any. -/
def findExact : List (String × Handler) → String → Option Handler
  | [], _ => none
  | (pattern, h) :: rest, path => if path = pattern then some h else findExact rest path

/-- The method `ServeMux.ServeHTTP`, for patterns that are rooted paths without
a trailing slash, host, method or wildcard (as the one `main` registers).

* The request-target `*` is answered 400; the server parses that target, and no
  other, into the URL path `*`, which is what is tested here.
* A CONNECT request is matched on its path as it is.
* Any other request is matched on its cleaned path, and a request whose path is
  not already clean is redirected to the cleaned path (status 307; 301 in
  earlier Go versions), its query kept.
* No match: `http.NotFound`.

The path is compared in the form `URL.EscapedPath` gives it; the model takes a
path that needs no percent-escape, so that this form is `URL.Path` itself. -/
def serveMux (routes : List (String × Handler)) : Handler := fun r s =>
  if r.URL.Path = "*" then
    let s1 :=
      if r.ProtoMajor > 1 ∨ (r.ProtoMajor = 1 ∧ r.ProtoMinor ≥ 1) then
        s.headerSet "Connection" "close"
      else s
    s1.WriteHeader StatusBadRequest
  else if r.Method = "CONNECT" then
    match findExact routes r.URL.Path with
    | some h => h r s
    | none => httpNotFound r s
  else
    let path := cleanPath r.URL.Path
    if path ≠ r.URL.Path then
      httpRedirect r s (path ++ (if r.URL.RawQuery = "" then "" else "?" ++ r.URL.RawQuery))
        StatusTemporaryRedirect
    else
      match findExact routes path with
      | some h => h r s
      | none => httpNotFound r s

/-- The function `strings.Join`. -/
def stringsJoin : List String → String → String
  | [], _ => ""
  | [a], _ => a
  | a :: b :: rest, sep => a ++ sep ++ stringsJoin (b :: rest) sep

/-! ## main.go -/

def host : String := "0.0.0.0"

def port : Int := 8080

/-- Source function `JSONResponse` (main.go, lines 87-95). -/
def JSONResponse (s : World) (status : Int) (data : GoValue) : World :=
  let s1 := s.headerSet "Content-Type" "application/json"
  let s2 := s1.WriteHeader status
  if s2.panicked.isSome then s2
  else
    match jsonEncode s2 data with
    | (s3, none) => s3
    | (s3, some err) => httpError s3 err StatusInternalServerError

/-- Source function `preflightHandler` (main.go, lines 67-77). -/
def preflightHandler : Handler := fun r s =>
  let s1 := s.headerSet "Access-Control-Allow-Origin" "*"
  let headers := ["*"]
  let s2 := s1.headerSet "Access-Control-Allow-Headers" (stringsJoin headers ",")
  let methods := ["GET", "HEAD", "POST", "PUT", "DELETE"]
  let s3 := s2.headerSet "Access-Control-Allow-Methods" (stringsJoin methods ",")
  s3.slogInfo "preflight request" [("http_path", .str r.URL.Path)]

/-- Source function `allowCORS` (main.go, lines 53-65). -/
def allowCORS (h : Handler) : Handler := fun r s =>
  let origin := Header.Get r.Header "Origin"
  if origin ≠ "" then
    let s1 := s.headerSet "Access-Control-Allow-Origin" origin
    if r.Method = "OPTIONS" ∧ Header.Get r.Header "Access-Control-Request-Method" ≠ "" then
      preflightHandler r s1
    else
      h r s1
  else
    h r s

/-- Source function `withLogger` (main.go, lines 79-85). -/
def withLogger (h : Handler) : Handler := fun r s =>
  let s1 := s.slogInfo "Run request" [("http_method", .str r.Method), ("http_url", .url r.URL)]
  h r s1

/-- The closure registered for the pattern (main.go, lines 26-30). -/
def appV1 : Handler := fun _ s =>
  JSONResponse s StatusOK (.map [("message", .string "app-v1")])

/-- The variable `mux` of `main` (main.go, lines 25-30). -/
def mux : Handler := serveMux [("/app-v1", appV1)]

/-- The field `s.Handler` of `main` (main.go, line 34). -/
def serverHandler : Handler := allowCORS (withLogger mux)

/-- The response of the server to request `r` arriving while the log holds `logs`. -/
def serve (logs : List LogRecord) (r : Request) : Option Response :=
  finishRequest (serverHandler r (World.fresh logs))

/-- The record written by `slog.Error("failed to listen and serve", err)`: the
lone `err` argument has no key, which `slog` files under `!BADKEY`. -/
def listenErrorRecord (err : GoError) : LogRecord :=
  { level := .Error, msg := "failed to listen and serve", attrs := [("!BADKEY", .err err)] }

/-- Source function `main` from line 46 on, as a function of the error that
`s.ListenAndServe()` returns: the records it appends to the log. -/
def main (err : GoError) (logs : List LogRecord) : List LogRecord :=
  let logs1 := logs ++ [{ level := .Info, msg := "start listening...",
                          attrs := [("address", .str (host ++ ":" ++ toString port))] }]
  if errorsIs err .ErrServerClosed then logs1 ++ [listenErrorRecord err] else logs1

/-! ## Reading a response body as JSON

A reader for JSON text (integers only among the numbers), used to state what a
response body parses to. -/

/-- Parsed JSON. -/
inductive Json where
  | null
  | bool (b : Bool)
  | num (n : Int)
  | str (s : String)
  | arr (xs : List Json)
  | obj (kvs : List (String × Json))

/-- Drop leading JSON white space. -/
def skipWs : List Char → List Char
  | [] => []
  | c :: cs => if c = ' ' ∨ c = '\n' ∨ c = '\r' ∨ c = '\t' then skipWs cs else c :: cs

/-- Value of a hexadecimal digit. -/
def hexVal (c : Char) : Option Nat :=
  if '0' ≤ c ∧ c ≤ '9' then some (c.toNat - 48)
  else if 'a' ≤ c ∧ c ≤ 'f' then some (c.toNat - 87)
  else if 'A' ≤ c ∧ c ≤ 'F' then some (c.toNat - 55)
  else none

/-- The character a one-letter escape stands for. -/
def unescape (c : Char) : Option Char :=
  if c = '"' then some '"'
  else if c = '\\' then some '\\'
  else if c = '/' then some '/'
  else if c = 'b' then some (Char.ofNat 8)
  else if c = 'f' then some (Char.ofNat 12)
  else if c = 'n' then some '\n'
  else if c = 'r' then some '\r'
  else if c = 't' then some '\t'
  else none

/-- Read a string after its opening quote; `acc` holds the characters read so
far, last first. -/
def parseString : List Char → List Char → Option (String × List Char)
  | [], _ => none
  | c :: cs, acc =>
    if c = '"' then some (String.mk acc.reverse, cs)
    else if c = '\\' then
      match cs with
      | [] => none
      | e :: rest =>
        if e = 'u' then
          match rest with
          | a :: b :: c' :: d :: rest' =>
            match hexVal a, hexVal b, hexVal c', hexVal d with
            | some x, some y, some z, some w =>
                parseString rest' (Char.ofNat (((x * 16 + y) * 16 + z) * 16 + w) :: acc)
            | _, _, _, _ => none
          | _ => none
        else
          match unescape e with
          | some ch => parseString rest (ch :: acc)
          | none => none
    else if c.toNat < 32 then none
    else parseString cs (c :: acc)

/-- Read a run of decimal digits onto `n`. -/
def parseDigits : List Char → Nat → Nat × List Char
  | [], n => (n, [])
  | c :: cs, n => if c.isDigit then parseDigits cs (n * 10 + (c.toNat - 48)) else (n, c :: cs)

mutual
/-- Read one JSON value, with `fuel` bounding the nesting and length. -/
def parseValue : Nat → List Char → Option (Json × List Char)
  | 0, _ => none
  | fuel + 1, cs =>
    match skipWs cs with
    | 'n' :: 'u' :: 'l' :: 'l' :: rest => some (.null, rest)
    | 't' :: 'r' :: 'u' :: 'e' :: rest => some (.bool true, rest)
    | 'f' :: 'a' :: 'l' :: 's' :: 'e' :: rest => some (.bool false, rest)
    | '"' :: rest =>
      match parseString rest [] with
      | some (s, rest') => some (.str s, rest')
      | none => none
    | '[' :: rest =>
      match skipWs rest with
      | ']' :: rest' => some (.arr [], rest')
      | _ =>
        match parseElems fuel rest with
        | some (xs, rest') => some (.arr xs, rest')
        | none => none
    | '\x7b' :: rest =>
      match skipWs rest with
      | '\x7d' :: rest' => some (.obj [], rest')
      | _ =>
        match parseMembers fuel rest with
        | some (kvs, rest') => some (.obj kvs, rest')
        | none => none
    | '-' :: c :: rest =>
      if c.isDigit then
        let (n, rest') := parseDigits (c :: rest) 0
        some (.num (-(n : Int)), rest')
      else none
    | c :: rest =>
      if c.isDigit then
        let (n, rest') := parseDigits (c :: rest) 0
        some (.num (n : Int), rest')
      else none
    | [] => none
/-- Read the elements of an array up to and including the closing bracket. -/
def parseElems : Nat → List Char → Option (List Json × List Char)
  | 0, _ => none
  | fuel + 1, cs =>
    match parseValue fuel cs with
    | none => none
    | some (v, rest) =>
      match skipWs rest with
      | ',' :: rest' =>
        match parseElems fuel rest' with
        | some (vs, rest'') => some (v :: vs, rest'')
        | none => none
      | ']' :: rest' => some ([v], rest')
      | _ => none
/-- Read the members of an object up to and including the closing brace. -/
def parseMembers : Nat → List Char → Option (List (String × Json) × List Char)
  | 0, _ => none
  | fuel + 1, cs =>
    match skipWs cs with
    | '"' :: rest =>
      match parseString rest [] with
      | none => none
      | some (k, rest1) =>
        match skipWs rest1 with
        | ':' :: rest2 =>
          match parseValue fuel rest2 with
          | none => none
          | some (v, rest3) =>
            match skipWs rest3 with
            | ',' :: rest4 =>
              match parseMembers fuel rest4 with
              | some (kvs, rest5) => some ((k, v) :: kvs, rest5)
              | none => none
            | '\x7d' :: rest4 => some ([(k, v)], rest4)
            | _ => none
        | _ => none
    | _ => none
end

/-- The JSON value a text parses to, if it is one JSON value and white space. -/
def jsonDecode (text : String) : Option Json :=
  match parseValue (2 * text.length + 2) text.toList with
  | some (v, rest) => if skipWs rest = [] then some v else none
  | none => none

/-! ## Sample requests and handlers -/

/-- A preflight request for the registered path. -/
def preflightAppV1 : Request :=
  { Method := "OPTIONS", URL := { Path := "/app-v1", RawQuery := "" },
    Header := [("Origin", ["https://example.com"]), ("Access-Control-Request-Method", ["POST"])] }

/-- A preflight request for a path that is not registered. -/
def preflightMissing : Request :=
  { Method := "OPTIONS", URL := { Path := "/missing", RawQuery := "" },
    Header := [("Origin", ["https://example.com"]), ("Access-Control-Request-Method", ["POST"])] }

/-- A cross-origin GET of the registered path. -/
def getAppV1CrossOrigin : Request :=
  { Method := "GET", URL := { Path := "/app-v1", RawQuery := "" },
    Header := [("Origin", ["https://example.com"])] }

/-- An OPTIONS request that names a request method but has no Origin header. -/
def optionsNoOrigin : Request :=
  { Method := "OPTIONS", URL := { Path := "/app-v1", RawQuery := "x=1" },
    Header := [("Accept", ["*/*"]), ("Access-Control-Request-Method", ["POST"])] }

/-- A GET of a path that is not registered. -/
def getMissing : Request :=
  { Method := "GET", URL := { Path := "/app-v1/", RawQuery := "" },
    Header := [("Origin", ["https://example.com"])] }

/-- An OPTIONS request whose Origin header is present with an empty value. -/
def optionsEmptyOrigin : Request :=
  { Method := "OPTIONS", URL := { Path := "/app-v1", RawQuery := "" },
    Header := [("Origin", [""]), ("Access-Control-Request-Method", ["POST"])] }

/-- An OPTIONS request whose Access-Control-Request-Method is present with an
empty value. -/
def optionsEmptyRequestMethod : Request :=
  { Method := "OPTIONS", URL := { Path := "/app-v1", RawQuery := "" },
    Header := [("Origin", ["https://example.com"]), ("Access-Control-Request-Method", [""])] }

/-- A cross-origin GET whose Origin value is the wildcard character itself. -/
def getOriginStar : Request :=
  { Method := "GET", URL := { Path := "/app-v1", RawQuery := "" },
    Header := [("Origin", ["*"])] }

/-- A GET whose path is not in clean form. -/
def getDoubleSlash : Request :=
  { Method := "GET", URL := { Path := "//app-v1", RawQuery := "" }, Header := [] }

/-- A GET of the request-target `*`. -/
def getStar : Request :=
  { Method := "GET", URL := { Path := "*", RawQuery := "" }, Header := [] }

/-- An inner handler that leaves a trace of each call in the log. -/
def probe : Handler := fun r s =>
  s.slogInfo "probe" [("http_method", .str r.Method), ("http_path", .str r.URL.Path)]

/-- An inner handler whose response shows how many records the log held when
it was called. -/
def logCount : Handler := fun _ s =>
  (s.Write (toString s.logs.length)).1

/-! ## Theorems -/

/-! ## Header lemmas -/

theorem Header.values_Set_self (h : Header) (k v : String) :
    Header.values (Header.Set h k v) k = some [v] := by
  induction h with
  | nil => simp [Header.Set, Header.values]
  | cons p t ih =>
    obtain ⟨k', vs⟩ := p
    by_cases hk : k' = k
    · simp [Header.Set, Header.values, hk]
    · simp [Header.Set, Header.values, hk, ih]

theorem Header.values_Set_ne (h : Header) (k v k' : String) (hne : k' ≠ k) :
    Header.values (Header.Set h k v) k' = Header.values h k' := by
  induction h with
  | nil => simp [Header.Set, Header.values, Ne.symm hne]
  | cons p t ih =>
    obtain ⟨k0, vs⟩ := p
    by_cases hk : k0 = k
    · subst hk
      simp [Header.Set, Header.values, Ne.symm hne]
    · by_cases hk' : k0 = k'
      · subst hk'
        simp [Header.Set, Header.values, hk]
      · simp [Header.Set, Header.values, hk, hk', ih]

theorem Header.values_Del_ne (h : Header) (k k' : String) (hne : k' ≠ k) :
    Header.values (Header.Del h k) k' = Header.values h k' := by
  induction h with
  | nil => simp [Header.Del, Header.values]
  | cons p t ih =>
    obtain ⟨k0, vs⟩ := p
    by_cases hk : k0 = k
    · subst hk
      simp [Header.Del, Header.values, Ne.symm hne, ih]
    · by_cases hk' : k0 = k'
      · subst hk'
        simp [Header.Del, Header.values, hk]
      · simp [Header.Del, Header.values, hk, hk', ih]

theorem Header.Get_Set_self (h : Header) (k v : String) :
    Header.Get (Header.Set h k v) k = v := by
  simp [Header.Get, Header.values_Set_self]

theorem stringsJoin_methods :
    stringsJoin ["GET", "HEAD", "POST", "PUT", "DELETE"] "," = "GET,HEAD,POST,PUT,DELETE" := by
  decide

theorem stringsJoin_headers : stringsJoin ["*"] "," = "*" := by
  decide

/-- What `allowCORS` does on a preflight request, whatever the inner handler. -/
theorem allowCORS_preflight_eq (h : Handler) (r : Request) (s : World)
    (hm : r.Method = "OPTIONS")
    (ho : Header.Get r.Header "Origin" ≠ "")
    (ha : Header.Get r.Header "Access-Control-Request-Method" ≠ "") :
    allowCORS h r s =
      { s with
        w := { s.w with
          header :=
            Header.Set
              (Header.Set
                (Header.Set
                  (Header.Set s.w.header "Access-Control-Allow-Origin"
                    (Header.Get r.Header "Origin"))
                  "Access-Control-Allow-Origin" "*")
                "Access-Control-Allow-Headers" "*")
              "Access-Control-Allow-Methods" "GET,HEAD,POST,PUT,DELETE" },
        logs := s.logs ++
          [{ level := .Info, msg := "preflight request",
             attrs := [("http_path", .str r.URL.Path)] }] } := by
  simp [allowCORS, ho, hm, ha, preflightHandler, World.headerSet, World.slogInfo,
    stringsJoin_methods, stringsJoin_headers]

/-! ## Frame lemmas: what the writer operations leave alone -/

theorem WriteHeader_header (s : World) (code : Int) :
    (s.WriteHeader code).w.header = s.w.header := by
  unfold World.WriteHeader
  split_ifs <;> rfl

theorem WriteHeader_logs (s : World) (code : Int) :
    (s.WriteHeader code).logs = s.logs := by
  unfold World.WriteHeader
  split_ifs <;> rfl

theorem Write_header (s : World) (data : String) :
    (s.Write data).1.w.header = s.w.header := by
  unfold World.Write
  by_cases hw : s.w.wroteHeader <;> by_cases hd : data.length = 0 <;>
    cases hb : bodyAllowedForStatus (s.WriteHeader StatusOK).w.status <;>
    cases hb2 : bodyAllowedForStatus s.w.status <;>
    simp [hw, hd, hb, hb2, WriteHeader_header]

theorem Write_logs (s : World) (data : String) :
    (s.Write data).1.logs = s.logs := by
  unfold World.Write
  by_cases hw : s.w.wroteHeader <;> by_cases hd : data.length = 0 <;>
    cases hb : bodyAllowedForStatus (s.WriteHeader StatusOK).w.status <;>
    cases hb2 : bodyAllowedForStatus s.w.status <;>
    simp [hw, hd, hb, hb2, WriteHeader_logs]

theorem httpError_logs (s : World) (msg : String) (code : Int) :
    (httpError s msg code).logs = s.logs := by
  unfold httpError
  dsimp only
  split_ifs <;> simp [Write_logs, WriteHeader_logs, World.headerSet, World.headerDel]

theorem httpError_values (s : World) (msg : String) (code : Int) (k : String)
    (h1 : k ≠ "Content-Type") (h2 : k ≠ "X-Content-Type-Options")
    (h3 : k ≠ "Content-Length") :
    Header.values (httpError s msg code).w.header k = Header.values s.w.header k := by
  unfold httpError
  dsimp only
  split_ifs <;>
    simp [Write_header, WriteHeader_header, World.headerSet, World.headerDel,
      Header.values_Set_ne, Header.values_Del_ne, h1, h2, h3]

theorem jsonEncode_logs (s : World) (data : GoValue) :
    (jsonEncode s data).1.logs = s.logs := by
  unfold jsonEncode
  split <;> simp [Write_logs]

theorem jsonEncode_header (s : World) (data : GoValue) :
    (jsonEncode s data).1.w.header = s.w.header := by
  unfold jsonEncode
  split <;> simp [Write_header]

theorem JSONResponse_logs (s : World) (status : Int) (data : GoValue) :
    (JSONResponse s status data).logs = s.logs := by
  unfold JSONResponse
  dsimp only
  split_ifs
  · simp [WriteHeader_logs, World.headerSet]
  · have hl := jsonEncode_logs ((s.headerSet "Content-Type" "application/json").WriteHeader status) data
    split <;> rename_i heq <;> rw [heq] at hl <;>
      simp_all [httpError_logs, WriteHeader_logs, World.headerSet]

theorem JSONResponse_values (s : World) (status : Int) (data : GoValue) (k : String)
    (h1 : k ≠ "Content-Type") (h2 : k ≠ "X-Content-Type-Options")
    (h3 : k ≠ "Content-Length") :
    Header.values (JSONResponse s status data).w.header k = Header.values s.w.header k := by
  unfold JSONResponse
  dsimp only
  split_ifs
  · simp [WriteHeader_header, World.headerSet, Header.values_Set_ne, h1]
  · have hl := jsonEncode_header ((s.headerSet "Content-Type" "application/json").WriteHeader status) data
    split <;> rename_i heq <;> rw [heq] at hl <;>
      simp_all [httpError_values, WriteHeader_header, World.headerSet, Header.values_Set_ne]

theorem httpRedirect_logs (r : Request) (s : World) (url : String) (code : Int) :
    (httpRedirect r s url code).logs = s.logs := by
  unfold httpRedirect
  dsimp only
  split_ifs <;> simp [Write_logs, WriteHeader_logs, World.headerSet]

theorem httpRedirect_values (r : Request) (s : World) (url : String) (code : Int)
    (k : String) (h1 : k ≠ "Content-Type") (h2 : k ≠ "Location") :
    Header.values (httpRedirect r s url code).w.header k = Header.values s.w.header k := by
  unfold httpRedirect
  dsimp only
  split_ifs <;>
    simp [Write_header, WriteHeader_header, World.headerSet, Header.values_Set_ne, h1, h2]

theorem cleanPath_appV1 : cleanPath "/app-v1" = "/app-v1" := by
  decide

/-- The route table hands a request for exactly /app-v1 to the registered closure. -/
theorem mux_appV1 (r : Request) (s : World) (hp : r.URL.Path = "/app-v1") :
    mux r s = appV1 r s := by
  have hstar : ¬ (r.URL.Path = "*") := by
    rw [hp]
    decide
  unfold mux serveMux
  dsimp only
  rw [if_neg hstar]
  by_cases hc : r.Method = "CONNECT"
  · rw [if_pos hc, hp]
    simp [findExact]
  · rw [if_neg hc, hp, cleanPath_appV1]
    simp [findExact]

/-- The route table hands any other request whose path is not the target `*` and
is clean (or whose method is CONNECT) to the not-found handler. -/
theorem mux_notFound (r : Request) (s : World) (hp : r.URL.Path ≠ "/app-v1")
    (hstar : r.URL.Path ≠ "*")
    (hclean : r.Method = "CONNECT" ∨ cleanPath r.URL.Path = r.URL.Path) :
    mux r s = httpNotFound r s := by
  unfold mux serveMux
  dsimp only
  rw [if_neg hstar]
  by_cases hc : r.Method = "CONNECT"
  · rw [if_pos hc]
    simp [findExact, hp]
  · have hcl : cleanPath r.URL.Path = r.URL.Path := hclean.resolve_left hc
    rw [if_neg hc, hcl]
    simp [findExact, hp]

/-- The four things the route table can do with a request. -/
theorem mux_cases (r : Request) (s : World) :
    mux r s = s.WriteHeader StatusBadRequest ∨
    mux r s = (s.headerSet "Connection" "close").WriteHeader StatusBadRequest ∨
    mux r s = appV1 r s ∨
    mux r s = httpNotFound r s ∨
    ∃ url, mux r s = httpRedirect r s url StatusTemporaryRedirect := by
  by_cases hstar : r.URL.Path = "*"
  · by_cases hproto : r.ProtoMajor > 1 ∨ (r.ProtoMajor = 1 ∧ r.ProtoMinor ≥ 1)
    · right; left
      simp only [mux, serveMux]
      rw [if_pos hstar, if_pos hproto]
    · left
      simp only [mux, serveMux]
      rw [if_pos hstar, if_neg hproto]
  · by_cases hp : r.URL.Path = "/app-v1"
    · right; right; left
      exact mux_appV1 r s hp
    · by_cases hc : r.Method = "CONNECT"
      · right; right; right; left
        exact mux_notFound r s hp hstar (Or.inl hc)
      · by_cases hcl : cleanPath r.URL.Path = r.URL.Path
        · right; right; right; left
          exact mux_notFound r s hp hstar (Or.inr hcl)
        · right; right; right; right
          refine ⟨cleanPath r.URL.Path ++
            (if r.URL.RawQuery = "" then "" else "?" ++ r.URL.RawQuery), ?_⟩
          simp only [mux, serveMux]
          rw [if_neg hstar, if_neg hc, if_pos hcl]

theorem mux_logs (r : Request) (s : World) : (mux r s).logs = s.logs := by
  rcases mux_cases r s with h | h | h | h | ⟨url, h⟩ <;> rw [h]
  · simp [WriteHeader_logs]
  · simp [WriteHeader_logs, World.headerSet]
  · simp [appV1, JSONResponse_logs]
  · simp [httpNotFound, httpError_logs]
  · simp [httpRedirect_logs]

theorem mux_values (r : Request) (s : World) (k : String)
    (h1 : k ≠ "Content-Type") (h2 : k ≠ "X-Content-Type-Options")
    (h3 : k ≠ "Content-Length") (h4 : k ≠ "Location") (h5 : k ≠ "Connection") :
    Header.values (mux r s).w.header k = Header.values s.w.header k := by
  rcases mux_cases r s with h | h | h | h | ⟨url, h⟩ <;> rw [h]
  · simp [WriteHeader_header]
  · simp [WriteHeader_header, World.headerSet, Header.values_Set_ne, h5]
  · simp [appV1, JSONResponse_values, h1, h2, h3]
  · simp [httpNotFound, httpError_values, h1, h2, h3]
  · simp [httpRedirect_values, h1, h4]

/-! ## Lemmas on the headers sent and on panics -/

theorem WriteHeader_sent (s : World) (code : Int) (k : String)
    (hh : Header.values s.w.header k = none) (hs : Header.values s.w.sentHeader k = none) :
    Header.values (s.WriteHeader code).w.sentHeader k = none := by
  unfold World.WriteHeader
  split_ifs <;> simp [hh, hs]

theorem Write_sent (s : World) (data : String) (k : String)
    (hh : Header.values s.w.header k = none) (hs : Header.values s.w.sentHeader k = none) :
    Header.values (s.Write data).1.w.sentHeader k = none := by
  have h1 := WriteHeader_sent s StatusOK k hh hs
  unfold World.Write
  by_cases hw : s.w.wroteHeader <;> by_cases hd : data.length = 0 <;>
    cases hb : bodyAllowedForStatus (s.WriteHeader StatusOK).w.status <;>
    cases hb2 : bodyAllowedForStatus s.w.status <;>
    simp [hw, hd, hb, hb2, h1, hs]

theorem WriteHeader_panicked (s : World) (code : Int) (hlo : 100 ≤ code) (hhi : code ≤ 999) :
    (s.WriteHeader code).panicked = s.panicked := by
  have h1 : ¬ (code < 100 ∨ code > 999) := by omega
  unfold World.WriteHeader
  split_ifs <;> rfl

theorem Write_panicked (s : World) (data : String) :
    (s.Write data).1.panicked = s.panicked := by
  have h1 := WriteHeader_panicked s StatusOK (by decide) (by decide)
  unfold World.Write
  by_cases hw : s.w.wroteHeader <;> by_cases hd : data.length = 0 <;>
    cases hb : bodyAllowedForStatus (s.WriteHeader StatusOK).w.status <;>
    cases hb2 : bodyAllowedForStatus s.w.status <;>
    simp [hw, hd, hb, hb2, h1]

theorem httpError_panicked (s : World) (msg : String) (code : Int)
    (hlo : 100 ≤ code) (hhi : code ≤ 999) :
    (httpError s msg code).panicked = s.panicked := by
  unfold httpError
  dsimp only
  split_ifs <;>
    simp [Write_panicked, WriteHeader_panicked _ _ hlo hhi, World.headerSet, World.headerDel]

theorem httpError_sent (s : World) (msg : String) (code : Int) (k : String)
    (h1 : k ≠ "Content-Type") (h2 : k ≠ "X-Content-Type-Options")
    (h3 : k ≠ "Content-Length")
    (hh : Header.values s.w.header k = none) (hs : Header.values s.w.sentHeader k = none) :
    Header.values (httpError s msg code).w.sentHeader k = none := by
  have hh2 : Header.values (((s.headerDel "Content-Length").headerSet "Content-Type"
      "text/plain; charset=utf-8").headerSet "X-Content-Type-Options" "nosniff").w.header k
      = none := by
    simp [World.headerSet, World.headerDel, Header.values_Set_ne, Header.values_Del_ne,
      h1, h2, h3, hh]
  have hs2 : Header.values (((s.headerDel "Content-Length").headerSet "Content-Type"
      "text/plain; charset=utf-8").headerSet "X-Content-Type-Options" "nosniff").w.sentHeader k
      = none := by
    simpa [World.headerSet, World.headerDel] using hs
  unfold httpError
  dsimp only
  split_ifs
  · exact WriteHeader_sent _ _ _ hh2 hs2
  · refine Write_sent _ _ _ ?_ (WriteHeader_sent _ _ _ hh2 hs2)
    rw [WriteHeader_header]
    exact hh2

theorem jsonEncode_panicked (s : World) (data : GoValue) :
    (jsonEncode s data).1.panicked = s.panicked := by
  unfold jsonEncode
  split <;> simp [Write_panicked]

theorem jsonEncode_sent (s : World) (data : GoValue) (k : String)
    (hh : Header.values s.w.header k = none) (hs : Header.values s.w.sentHeader k = none) :
    Header.values (jsonEncode s data).1.w.sentHeader k = none := by
  unfold jsonEncode
  split
  · exact hs
  · exact Write_sent _ _ _ hh hs

theorem JSONResponse_panicked (s : World) (status : Int) (data : GoValue)
    (hlo : 100 ≤ status) (hhi : status ≤ 999) :
    (JSONResponse s status data).panicked = s.panicked := by
  have hp := jsonEncode_panicked
    ((s.headerSet "Content-Type" "application/json").WriteHeader status) data
  unfold JSONResponse
  dsimp only
  split_ifs
  · simp [WriteHeader_panicked _ _ hlo hhi, World.headerSet]
  · split <;> rename_i heq <;> rw [heq] at hp <;>
      simp_all [httpError_panicked, WriteHeader_panicked _ _ hlo hhi, World.headerSet,
        StatusInternalServerError]

theorem JSONResponse_sent (s : World) (status : Int) (data : GoValue) (k : String)
    (h1 : k ≠ "Content-Type") (h2 : k ≠ "X-Content-Type-Options")
    (h3 : k ≠ "Content-Length")
    (hh : Header.values s.w.header k = none) (hs : Header.values s.w.sentHeader k = none) :
    Header.values (JSONResponse s status data).w.sentHeader k = none := by
  have hh1 : Header.values (s.headerSet "Content-Type" "application/json").w.header k
      = none := by
    simp [World.headerSet, Header.values_Set_ne, h1, hh]
  have hs1 : Header.values (s.headerSet "Content-Type" "application/json").w.sentHeader k
      = none := by
    simpa [World.headerSet] using hs
  have hh2 : Header.values
      ((s.headerSet "Content-Type" "application/json").WriteHeader status).w.header k
      = none := by
    rw [WriteHeader_header]
    exact hh1
  have hs2 := WriteHeader_sent _ status k hh1 hs1
  have he := jsonEncode_sent _ data k hh2 hs2
  have heh := jsonEncode_header
    ((s.headerSet "Content-Type" "application/json").WriteHeader status) data
  unfold JSONResponse
  dsimp only
  split_ifs
  · exact hs2
  · split <;> rename_i heq <;> rw [heq] at he heh
    · exact he
    · refine httpError_sent _ _ _ _ h1 h2 h3 ?_ he
      simp only at heh
      rw [heh]
      exact hh2

theorem httpRedirect_panicked (r : Request) (s : World) (url : String) (code : Int)
    (hlo : 100 ≤ code) (hhi : code ≤ 999) :
    (httpRedirect r s url code).panicked = s.panicked := by
  unfold httpRedirect
  dsimp only
  split_ifs <;> simp [Write_panicked, WriteHeader_panicked _ _ hlo hhi, World.headerSet]

theorem httpRedirect_sent (r : Request) (s : World) (url : String) (code : Int) (k : String)
    (h1 : k ≠ "Content-Type") (h2 : k ≠ "Location")
    (hh : Header.values s.w.header k = none) (hs : Header.values s.w.sentHeader k = none) :
    Header.values (httpRedirect r s url code).w.sentHeader k = none := by
  unfold httpRedirect
  dsimp only
  split_ifs <;>
    first
    | (refine Write_sent _ _ _ ?_ (WriteHeader_sent _ _ _ ?_ ?_) <;>
        simp [WriteHeader_header, World.headerSet, Header.values_Set_ne, h1, h2, hh, hs])
    | (refine WriteHeader_sent _ _ _ ?_ ?_ <;>
        simp [World.headerSet, Header.values_Set_ne, h1, h2, hh, hs])

theorem mux_panicked (r : Request) (s : World) : (mux r s).panicked = s.panicked := by
  rcases mux_cases r s with h | h | h | h | ⟨url, h⟩ <;> rw [h]
  · exact WriteHeader_panicked _ _ (by decide) (by decide)
  · rw [WriteHeader_panicked _ _ (by decide) (by decide)]
    rfl
  · exact JSONResponse_panicked _ _ _ (by decide) (by decide)
  · exact httpError_panicked _ _ _ (by decide) (by decide)
  · exact httpRedirect_panicked _ _ _ _ (by decide) (by decide)

theorem mux_sent (r : Request) (s : World) (k : String)
    (h1 : k ≠ "Content-Type") (h2 : k ≠ "X-Content-Type-Options")
    (h3 : k ≠ "Content-Length") (h4 : k ≠ "Location") (h5 : k ≠ "Connection")
    (hh : Header.values s.w.header k = none) (hs : Header.values s.w.sentHeader k = none) :
    Header.values (mux r s).w.sentHeader k = none := by
  rcases mux_cases r s with h | h | h | h | ⟨url, h⟩ <;> rw [h]
  · exact WriteHeader_sent _ _ _ hh hs
  · refine WriteHeader_sent _ _ _ ?_ ?_ <;>
      simp [World.headerSet, Header.values_Set_ne, h5, hh, hs]
  · exact JSONResponse_sent _ _ _ _ h1 h2 h3 hh hs
  · exact httpError_sent _ _ _ _ h1 h2 h3 hh hs
  · exact httpRedirect_sent _ _ _ _ _ h1 h4 hh hs

/-- The response to a request that reaches the Logging middleware on a new
writer lacks every header that the route table does not set. -/
theorem withLogger_mux_response (r : Request) (logs : List LogRecord) (k : String)
    (h1 : k ≠ "Content-Type") (h2 : k ≠ "X-Content-Type-Options")
    (h3 : k ≠ "Content-Length") (h4 : k ≠ "Location") (h5 : k ≠ "Connection") :
    ∃ resp, finishRequest (withLogger mux r (World.fresh logs)) = some resp ∧
      Header.values resp.header k = none := by
  have hp : (withLogger mux r (World.fresh logs)).panicked = none := by
    simp only [withLogger]
    rw [mux_panicked]
    rfl
  have hh : Header.values (withLogger mux r (World.fresh logs)).w.header k = none := by
    simp only [withLogger]
    rw [mux_values _ _ _ h1 h2 h3 h4 h5]
    rfl
  have hs : Header.values (withLogger mux r (World.fresh logs)).w.sentHeader k = none := by
    simp only [withLogger]
    exact mux_sent _ _ _ h1 h2 h3 h4 h5 rfl rfl
  unfold finishRequest
  rw [hp]
  refine ⟨_, rfl, ?_⟩
  dsimp only
  split_ifs
  · exact hs
  · exact WriteHeader_sent _ _ _ hh hs

/-- C2: on a preflight request (method OPTIONS, non-empty Origin, non-empty
Access-Control-Request-Method) the header map that allowCORS leaves maps
Access-Control-Allow-Origin to the wildcard alone (not the reflected origin),
Access-Control-Allow-Headers to the wildcard and Access-Control-Allow-Methods to
GET,HEAD,POST,PUT,DELETE; every other key is as it was, and on a new response
writer the headers of the response are exactly these three. -/
theorem allowCORS_preflight_headers (h : Handler) (r : Request) (s : World)
    (hm : r.Method = "OPTIONS")
    (ho : Header.Get r.Header "Origin" ≠ "")
    (ha : Header.Get r.Header "Access-Control-Request-Method" ≠ "") :
    Header.values (allowCORS h r s).w.header "Access-Control-Allow-Origin" = some ["*"] ∧
    Header.values (allowCORS h r s).w.header "Access-Control-Allow-Headers" = some ["*"] ∧
    Header.values (allowCORS h r s).w.header "Access-Control-Allow-Methods"
      = some ["GET,HEAD,POST,PUT,DELETE"] ∧
    (∀ k, k ≠ "Access-Control-Allow-Origin" → k ≠ "Access-Control-Allow-Headers" →
      k ≠ "Access-Control-Allow-Methods" →
      Header.values (allowCORS h r s).w.header k = Header.values s.w.header k) ∧
    (∀ logs, (finishRequest (allowCORS h r (World.fresh logs))).map Response.header
      = some [("Access-Control-Allow-Origin", ["*"]), ("Access-Control-Allow-Headers", ["*"]),
              ("Access-Control-Allow-Methods", ["GET,HEAD,POST,PUT,DELETE"])]) := by
  refine ⟨?_, ?_, ?_, ?_, ?_⟩
  · rw [allowCORS_preflight_eq h r s hm ho ha]
    simp [Header.values_Set_ne, Header.values_Set_self]
  · rw [allowCORS_preflight_eq h r s hm ho ha]
    simp [Header.values_Set_ne, Header.values_Set_self]
  · rw [allowCORS_preflight_eq h r s hm ho ha]
    simp [Header.values_Set_self]
  · intro k h1 h2 h3
    rw [allowCORS_preflight_eq h r s hm ho ha]
    simp [Header.values_Set_ne, h1, h2, h3]
  · intro logs
    rw [allowCORS_preflight_eq h r _ hm ho ha]
    simp [finishRequest, World.fresh, ResponseWriter.fresh, World.WriteHeader, Header.Set,
      StatusOK, StatusSwitchingProtocols]

/-- C2 at a preflight request for /app-v1 with a probing inner handler. -/
theorem allowCORS_preflight_headers_witness :
    preflightAppV1.Method = "OPTIONS" ∧
    Header.Get preflightAppV1.Header "Origin" ≠ "" ∧
    Header.Get preflightAppV1.Header "Access-Control-Request-Method" ≠ "" ∧
    Header.values (allowCORS probe preflightAppV1 (World.fresh [])).w.header
      "Access-Control-Allow-Origin" = some ["*"] :=
  ⟨by decide, by decide, by decide,
    (allowCORS_preflight_headers probe preflightAppV1 (World.fresh [])
      (by decide) (by decide) (by decide)).1⟩

/-- C3: on a preflight request allowCORS(h) yields the same world for every
inner handler h (h is not invoked): the writer keeps its status, its
written-header flag, its sent headers, its interim lines and its body, no panic
is raised, the header map gets the three CORS headers, and the log gets one
preflight record. -/
theorem allowCORS_preflight_short_circuit (h : Handler) (r : Request) (s : World)
    (hm : r.Method = "OPTIONS")
    (ho : Header.Get r.Header "Origin" ≠ "")
    (ha : Header.Get r.Header "Access-Control-Request-Method" ≠ "") :
    allowCORS h r s =
      { w := { header :=
                 Header.Set
                   (Header.Set
                     (Header.Set
                       (Header.Set s.w.header "Access-Control-Allow-Origin"
                         (Header.Get r.Header "Origin"))
                       "Access-Control-Allow-Origin" "*")
                     "Access-Control-Allow-Headers" "*")
                   "Access-Control-Allow-Methods" "GET,HEAD,POST,PUT,DELETE",
               wroteHeader := s.w.wroteHeader,
               status := s.w.status,
               sentHeader := s.w.sentHeader,
               interim := s.w.interim,
               body := s.w.body },
        logs := s.logs ++
          [{ level := .Info, msg := "preflight request",
             attrs := [("http_path", .str r.URL.Path)] }],
        panicked := s.panicked } ∧
    (∀ h2 : Handler, allowCORS h2 r s = allowCORS h r s) := by
  refine ⟨allowCORS_preflight_eq h r s hm ho ha, ?_⟩
  intro h2
  rw [allowCORS_preflight_eq h r s hm ho ha, allowCORS_preflight_eq h2 r s hm ho ha]

/-- C3 at a preflight request for /app-v1 on a new writer: the probing inner handler leaves no trace. -/
theorem allowCORS_preflight_short_circuit_witness :
    preflightAppV1.Method = "OPTIONS" ∧
    Header.Get preflightAppV1.Header "Origin" ≠ "" ∧
    Header.Get preflightAppV1.Header "Access-Control-Request-Method" ≠ "" ∧
    allowCORS probe preflightAppV1 (World.fresh []) =
      { w := { header :=
                 Header.Set
                   (Header.Set
                     (Header.Set
                       (Header.Set (World.fresh []).w.header "Access-Control-Allow-Origin"
                         (Header.Get preflightAppV1.Header "Origin"))
                       "Access-Control-Allow-Origin" "*")
                     "Access-Control-Allow-Headers" "*")
                   "Access-Control-Allow-Methods" "GET,HEAD,POST,PUT,DELETE",
               wroteHeader := false,
               status := 0,
               sentHeader := [],
               interim := [],
               body := "" },
        logs := [{ level := .Info, msg := "preflight request",
                   attrs := [("http_path", .str "/app-v1")] }],
        panicked := none } :=
  ⟨by decide, by decide, by decide,
    (allowCORS_preflight_short_circuit probe preflightAppV1 (World.fresh [])
      (by decide) (by decide) (by decide)).1⟩

/-- C4 (as stated) fails on "never the wildcard": the Origin value is reflected
whatever it is, so a request that is not a preflight and whose Origin value is
the wildcard character gets Access-Control-Allow-Origin set to the wildcard. -/
theorem allowCORS_origin_star_counterexample :
    Header.Get getOriginStar.Header "Origin" ≠ "" ∧
    ¬ (getOriginStar.Method = "OPTIONS" ∧
        Header.Get getOriginStar.Header "Access-Control-Request-Method" ≠ "") ∧
    (∀ s1 : World,
      Header.values (probe getOriginStar s1).w.header "Access-Control-Allow-Origin"
        = Header.values s1.w.header "Access-Control-Allow-Origin") ∧
    Header.values (allowCORS probe getOriginStar (World.fresh [])).w.header
      "Access-Control-Allow-Origin" = some ["*"] ∧
    ¬ (Header.values (allowCORS probe getOriginStar (World.fresh [])).w.header
        "Access-Control-Allow-Origin" ≠ some ["*"]) := by
  refine ⟨by decide, by decide, fun s1 => rfl, by decide, by decide⟩

/-- C4 (amended): for a request with a non-empty Origin value that is not a
preflight, allowCORS(h) is h run once on the same request and on the writer
whose Access-Control-Allow-Origin has been set to exactly the Origin value; when
h leaves that header alone, the header ends up holding exactly the Origin
value, which is the wildcard only when the Origin value is itself the
wildcard character. -/
theorem allowCORS_reflects_origin (h : Handler) (r : Request) (s : World)
    (ho : Header.Get r.Header "Origin" ≠ "")
    (hnp : ¬ (r.Method = "OPTIONS" ∧ Header.Get r.Header "Access-Control-Request-Method" ≠ ""))
    (hkeep : ∀ s1 : World,
      Header.values (h r s1).w.header "Access-Control-Allow-Origin"
        = Header.values s1.w.header "Access-Control-Allow-Origin") :
    allowCORS h r s
      = h r (s.headerSet "Access-Control-Allow-Origin" (Header.Get r.Header "Origin")) ∧
    Header.values (allowCORS h r s).w.header "Access-Control-Allow-Origin"
      = some [Header.Get r.Header "Origin"] ∧
    (Header.values (allowCORS h r s).w.header "Access-Control-Allow-Origin" = some ["*"]
      ↔ Header.Get r.Header "Origin" = "*") := by
  have heq : allowCORS h r s
      = h r (s.headerSet "Access-Control-Allow-Origin" (Header.Get r.Header "Origin")) := by
    simp only [allowCORS]
    rw [if_pos ho, if_neg hnp]
  have hval : Header.values (allowCORS h r s).w.header "Access-Control-Allow-Origin"
      = some [Header.Get r.Header "Origin"] := by
    rw [heq, hkeep]
    simp [World.headerSet, Header.values_Set_self]
  refine ⟨heq, hval, ?_⟩
  rw [hval]
  simp

/-- C4 (amended) at a cross-origin GET of /app-v1, with the logging route table
as inner handler. -/
theorem allowCORS_reflects_origin_witness :
    Header.Get getAppV1CrossOrigin.Header "Origin" ≠ "" ∧
    ¬ (getAppV1CrossOrigin.Method = "OPTIONS" ∧
        Header.Get getAppV1CrossOrigin.Header "Access-Control-Request-Method" ≠ "") ∧
    allowCORS (withLogger mux) getAppV1CrossOrigin (World.fresh [])
      = withLogger mux getAppV1CrossOrigin
          ((World.fresh []).headerSet "Access-Control-Allow-Origin"
            (Header.Get getAppV1CrossOrigin.Header "Origin")) ∧
    Header.values (allowCORS (withLogger mux) getAppV1CrossOrigin (World.fresh [])).w.header
      "Access-Control-Allow-Origin" = some [Header.Get getAppV1CrossOrigin.Header "Origin"] ∧
    (Header.values (allowCORS (withLogger mux) getAppV1CrossOrigin (World.fresh [])).w.header
      "Access-Control-Allow-Origin" = some ["*"]
      ↔ Header.Get getAppV1CrossOrigin.Header "Origin" = "*") :=
  ⟨by decide, by decide,
    allowCORS_reflects_origin (withLogger mux) getAppV1CrossOrigin (World.fresh [])
      (by decide) (by decide)
      (fun s1 => by
        simp only [withLogger]
        rw [mux_values _ _ _ (by decide) (by decide) (by decide) (by decide) (by decide)]
        rfl)⟩

/-- C5: for a request without an Origin header allowCORS(h) is h itself, run on
the same request and the untouched writer; the response of the server then
carries none of Access-Control-Allow-Origin, Access-Control-Allow-Headers and
Access-Control-Allow-Methods. -/
theorem allowCORS_no_origin (h : Handler) (r : Request) (s : World) (logs : List LogRecord)
    (hno : Header.values r.Header "Origin" = none) :
    allowCORS h r s = h r s ∧
    ∃ resp, serve logs r = some resp ∧
      Header.values resp.header "Access-Control-Allow-Origin" = none ∧
      Header.values resp.header "Access-Control-Allow-Headers" = none ∧
      Header.values resp.header "Access-Control-Allow-Methods" = none := by
  have hget : Header.Get r.Header "Origin" = "" := by simp [Header.Get, hno]
  have heq : ∀ (g : Handler) (t : World), allowCORS g r t = g r t := by
    intro g t
    simp [allowCORS, hget]
  refine ⟨heq h s, ?_⟩
  obtain ⟨resp1, hr1, hv1⟩ := withLogger_mux_response r logs "Access-Control-Allow-Origin"
    (by decide) (by decide) (by decide) (by decide) (by decide)
  obtain ⟨resp2, hr2, hv2⟩ := withLogger_mux_response r logs "Access-Control-Allow-Headers"
    (by decide) (by decide) (by decide) (by decide) (by decide)
  obtain ⟨resp3, hr3, hv3⟩ := withLogger_mux_response r logs "Access-Control-Allow-Methods"
    (by decide) (by decide) (by decide) (by decide) (by decide)
  have e2 : resp2 = resp1 := Option.some.inj (hr2.symm.trans hr1)
  have e3 : resp3 = resp1 := Option.some.inj (hr3.symm.trans hr1)
  rw [e2] at hv2
  rw [e3] at hv3
  refine ⟨resp1, ?_, hv1, hv2, hv3⟩
  simp only [serve, serverHandler, heq]
  exact hr1

/-- C5 at an OPTIONS request that carries Access-Control-Request-Method but no Origin. -/
theorem allowCORS_no_origin_witness :
    Header.values optionsNoOrigin.Header "Origin" = none ∧
    allowCORS probe optionsNoOrigin (World.fresh []) = probe optionsNoOrigin (World.fresh []) ∧
    ∃ resp, serve [] optionsNoOrigin = some resp ∧
      Header.values resp.header "Access-Control-Allow-Origin" = none ∧
      Header.values resp.header "Access-Control-Allow-Headers" = none ∧
      Header.values resp.header "Access-Control-Allow-Methods" = none :=
  ⟨by decide, allowCORS_no_origin probe optionsNoOrigin (World.fresh []) [] (by decide)⟩

/-- C10: an Origin header that is present with an empty first value is treated
like an absent one, also on an OPTIONS request carrying
Access-Control-Request-Method: allowCORS(h) is h itself on the untouched writer
(no header set, no preflight handling).  An OPTIONS request with a non-empty
Origin whose Access-Control-Request-Method is present with an empty first value
is not a preflight: the origin is reflected and h is run. -/
theorem allowCORS_empty_values (h : Handler) (r1 r2 : Request) (s : World)
    (rest1 rest2 : List String)
    (h1 : Header.values r1.Header "Origin" = some ("" :: rest1))
    (h2o : Header.Get r2.Header "Origin" ≠ "")
    (_h2m : r2.Method = "OPTIONS")
    (h2a : Header.values r2.Header "Access-Control-Request-Method" = some ("" :: rest2)) :
    allowCORS h r1 s = h r1 s ∧
    allowCORS h r2 s
      = h r2 (s.headerSet "Access-Control-Allow-Origin" (Header.Get r2.Header "Origin")) := by
  have hget1 : Header.Get r1.Header "Origin" = "" := by simp [Header.Get, h1]
  have hget2 : Header.Get r2.Header "Access-Control-Request-Method" = "" := by
    simp [Header.Get, h2a]
  constructor
  · simp [allowCORS, hget1]
  · simp [allowCORS, h2o, hget2]

/-- C10 at two OPTIONS requests: one with an empty Origin value, one with an empty Access-Control-Request-Method value. -/
theorem allowCORS_empty_values_witness :
    optionsEmptyOrigin.Method = "OPTIONS" ∧
    Header.values optionsEmptyOrigin.Header "Origin" = some ("" :: []) ∧
    Header.Get optionsEmptyOrigin.Header "Access-Control-Request-Method" = "POST" ∧
    Header.Get optionsEmptyRequestMethod.Header "Origin" ≠ "" ∧
    optionsEmptyRequestMethod.Method = "OPTIONS" ∧
    Header.values optionsEmptyRequestMethod.Header "Access-Control-Request-Method"
      = some ("" :: []) ∧
    allowCORS probe optionsEmptyOrigin (World.fresh [])
      = probe optionsEmptyOrigin (World.fresh []) ∧
    allowCORS probe optionsEmptyRequestMethod (World.fresh [])
      = probe optionsEmptyRequestMethod
          ((World.fresh []).headerSet "Access-Control-Allow-Origin"
            (Header.Get optionsEmptyRequestMethod.Header "Origin")) :=
  ⟨by decide, by decide, by decide, by decide, by decide, by decide,
    allowCORS_empty_values probe optionsEmptyOrigin optionsEmptyRequestMethod (World.fresh [])
      [] [] (by decide) (by decide) (by decide) (by decide)⟩

/-- C1 (as stated) fails: a preflight request for /app-v1 is answered by the
CORS middleware alone, with the implicit status 200, no Content-Type and an
empty body, which is not JSON. -/
theorem serve_appV1_preflight_counterexample :
    preflightAppV1.URL.Path = "/app-v1" ∧
    serve [] preflightAppV1
      = some { status := 200,
               header := [("Access-Control-Allow-Origin", ["*"]),
                          ("Access-Control-Allow-Headers", ["*"]),
                          ("Access-Control-Allow-Methods", ["GET,HEAD,POST,PUT,DELETE"])],
               body := "" } ∧
    ¬ (∃ resp, serve [] preflightAppV1 = some resp ∧ resp.status = 200 ∧
        Header.Get resp.header "Content-Type" = "application/json" ∧
        jsonDecode resp.body = some (.obj [("message", .str "app-v1")])) := by
  have hs : serve [] preflightAppV1
      = some { status := 200,
               header := [("Access-Control-Allow-Origin", ["*"]),
                          ("Access-Control-Allow-Headers", ["*"]),
                          ("Access-Control-Allow-Methods", ["GET,HEAD,POST,PUT,DELETE"])],
               body := "" } := by decide
  refine ⟨by decide, hs, ?_⟩
  rintro ⟨resp, hresp, -, hct, -⟩
  rw [hs] at hresp
  cases hresp
  revert hct
  decide

/-- C1 (amended): for every request whose path is exactly /app-v1 and that is
not a preflight (non-empty Origin, method OPTIONS and non-empty
Access-Control-Request-Method together), whatever its method and other headers,
the server answers with status 200, Content-Type application/json and a body
that parses as the JSON object with the one member message = app-v1. -/
theorem serve_appV1 (logs : List LogRecord) (r : Request)
    (hp : r.URL.Path = "/app-v1")
    (hnp : ¬ (Header.Get r.Header "Origin" ≠ "" ∧ r.Method = "OPTIONS" ∧
              Header.Get r.Header "Access-Control-Request-Method" ≠ "")) :
    ∃ resp, serve logs r = some resp ∧ resp.status = 200 ∧
      Header.Get resp.header "Content-Type" = "application/json" ∧
      Header.values resp.header "Content-Type" = some ["application/json"] ∧
      resp.body = "\x7b\"message\":\"app-v1\"\x7d\n" ∧
      jsonDecode resp.body = some (.obj [("message", .str "app-v1")]) := by
  by_cases ho : Header.Get r.Header "Origin" = ""
  · refine ⟨⟨200, [("Content-Type", ["application/json"])], "\x7b\"message\":\"app-v1\"\x7d\n"⟩,
      ?_, rfl, by decide, by decide, rfl, by rfl⟩
    simp only [serve, serverHandler, allowCORS, ho, ne_eq, not_true_eq_false, if_false]
    simp only [withLogger]
    rw [mux_appV1 _ _ hp]
    rfl
  · have hnp2 : ¬ (r.Method = "OPTIONS" ∧
        Header.Get r.Header "Access-Control-Request-Method" ≠ "") :=
      fun h => hnp ⟨ho, h.1, h.2⟩
    refine ⟨⟨200, [("Access-Control-Allow-Origin", [Header.Get r.Header "Origin"]),
        ("Content-Type", ["application/json"])], "\x7b\"message\":\"app-v1\"\x7d\n"⟩,
      ?_, rfl, by simp [Header.Get, Header.values], by simp [Header.values], rfl, by rfl⟩
    simp only [serve, serverHandler, allowCORS]
    rw [if_pos ho, if_neg hnp2]
    simp only [withLogger]
    rw [mux_appV1 _ _ hp]
    rfl

/-- C1 (amended) at a cross-origin GET of /app-v1. -/
theorem serve_appV1_witness :
    getAppV1CrossOrigin.URL.Path = "/app-v1" ∧
    ¬ (Header.Get getAppV1CrossOrigin.Header "Origin" ≠ "" ∧
        getAppV1CrossOrigin.Method = "OPTIONS" ∧
        Header.Get getAppV1CrossOrigin.Header "Access-Control-Request-Method" ≠ "") ∧
    ∃ resp, serve [] getAppV1CrossOrigin = some resp ∧ resp.status = 200 ∧
      Header.Get resp.header "Content-Type" = "application/json" ∧
      Header.values resp.header "Content-Type" = some ["application/json"] ∧
      resp.body = "\x7b\"message\":\"app-v1\"\x7d\n" ∧
      jsonDecode resp.body = some (.obj [("message", .str "app-v1")]) :=
  ⟨by decide, by decide, serve_appV1 [] getAppV1CrossOrigin (by decide) (by decide)⟩

/-- C9 (as stated) fails: a preflight request for a path other than /app-v1 is
answered by the CORS middleware alone, with the implicit status 200; a request
whose path is not in clean form is redirected to the cleaned path; and the
request-target `*` is answered 400.  None of the three gets 404. -/
theorem serve_missing_counterexample :
    preflightMissing.URL.Path ≠ "/app-v1" ∧
    serve [] preflightMissing
      = some { status := 200,
               header := [("Access-Control-Allow-Origin", ["*"]),
                          ("Access-Control-Allow-Headers", ["*"]),
                          ("Access-Control-Allow-Methods", ["GET,HEAD,POST,PUT,DELETE"])],
               body := "" } ∧
    ¬ (∃ resp, serve [] preflightMissing = some resp ∧ resp.status = 404) ∧
    getDoubleSlash.URL.Path ≠ "/app-v1" ∧
    serve [] getDoubleSlash
      = some { status := 307,
               header := [("Location", ["/app-v1"]),
                          ("Content-Type", ["text/html; charset=utf-8"])],
               body := "<a href=\"/app-v1\">Temporary Redirect</a>.\n\n" } ∧
    ¬ (∃ resp, serve [] getDoubleSlash = some resp ∧ resp.status = 404) ∧
    getStar.URL.Path ≠ "/app-v1" ∧
    serve [] getStar
      = some { status := 400, header := [("Connection", ["close"])], body := "" } ∧
    ¬ (∃ resp, serve [] getStar = some resp ∧ resp.status = 404) := by
  have hs1 : serve [] preflightMissing
      = some { status := 200,
               header := [("Access-Control-Allow-Origin", ["*"]),
                          ("Access-Control-Allow-Headers", ["*"]),
                          ("Access-Control-Allow-Methods", ["GET,HEAD,POST,PUT,DELETE"])],
               body := "" } := by decide
  have hs2 : serve [] getDoubleSlash
      = some { status := 307,
               header := [("Location", ["/app-v1"]),
                          ("Content-Type", ["text/html; charset=utf-8"])],
               body := "<a href=\"/app-v1\">Temporary Redirect</a>.\n\n" } := by decide
  have hs3 : serve [] getStar
      = some { status := 400, header := [("Connection", ["close"])], body := "" } := by decide
  refine ⟨by decide, hs1, ?_, by decide, hs2, ?_, by decide, hs3, ?_⟩
  · rintro ⟨resp, hresp, hst⟩
    rw [hs1] at hresp
    cases hresp
    revert hst
    decide
  · rintro ⟨resp, hresp, hst⟩
    rw [hs2] at hresp
    cases hresp
    revert hst
    decide
  · rintro ⟨resp, hresp, hst⟩
    rw [hs3] at hresp
    cases hresp
    revert hst
    decide

/-- C9 (amended): for every request whose path is anything other than exactly
/app-v1, that is not a preflight (non-empty Origin, method OPTIONS and non-empty
Access-Control-Request-Method together), whose path is not the request-target
`*` and is in clean form (path cleaning returns it unchanged; not asked of a
CONNECT request, whose path is not cleaned), whatever its method and other
headers, the server answers with status 404 and the plain-text not-found
body. -/
theorem serve_missing (logs : List LogRecord) (r : Request)
    (hp : r.URL.Path ≠ "/app-v1")
    (hstar : r.URL.Path ≠ "*")
    (hclean : r.Method = "CONNECT" ∨ cleanPath r.URL.Path = r.URL.Path)
    (hnp : ¬ (Header.Get r.Header "Origin" ≠ "" ∧ r.Method = "OPTIONS" ∧
              Header.Get r.Header "Access-Control-Request-Method" ≠ "")) :
    ∃ resp, serve logs r = some resp ∧ resp.status = 404 ∧
      Header.values resp.header "Content-Type" = some ["text/plain; charset=utf-8"] ∧
      resp.body = "404 page not found\n" := by
  by_cases ho : Header.Get r.Header "Origin" = ""
  · refine ⟨⟨404, [("Content-Type", ["text/plain; charset=utf-8"]),
        ("X-Content-Type-Options", ["nosniff"])], "404 page not found\n"⟩,
      ?_, rfl, by decide, rfl⟩
    simp only [serve, serverHandler, allowCORS, ho, ne_eq, not_true_eq_false, if_false]
    simp only [withLogger]
    rw [mux_notFound _ _ hp hstar hclean]
    rfl
  · have hnp2 : ¬ (r.Method = "OPTIONS" ∧
        Header.Get r.Header "Access-Control-Request-Method" ≠ "") :=
      fun h => hnp ⟨ho, h.1, h.2⟩
    refine ⟨⟨404, [("Access-Control-Allow-Origin", [Header.Get r.Header "Origin"]),
        ("Content-Type", ["text/plain; charset=utf-8"]),
        ("X-Content-Type-Options", ["nosniff"])], "404 page not found\n"⟩,
      ?_, rfl, by simp [Header.values], rfl⟩
    simp only [serve, serverHandler, allowCORS]
    rw [if_pos ho, if_neg hnp2]
    simp only [withLogger]
    rw [mux_notFound _ _ hp hstar hclean]
    rfl

/-- C9 (amended) at a cross-origin GET of /app-v1/ (trailing slash: a clean
path that is not the registered one). -/
theorem serve_missing_witness :
    getMissing.URL.Path ≠ "/app-v1" ∧
    getMissing.URL.Path ≠ "*" ∧
    (getMissing.Method = "CONNECT" ∨ cleanPath getMissing.URL.Path = getMissing.URL.Path) ∧
    ¬ (Header.Get getMissing.Header "Origin" ≠ "" ∧ getMissing.Method = "OPTIONS" ∧
        Header.Get getMissing.Header "Access-Control-Request-Method" ≠ "") ∧
    ∃ resp, serve [] getMissing = some resp ∧ resp.status = 404 ∧
      Header.values resp.header "Content-Type" = some ["text/plain; charset=utf-8"] ∧
      resp.body = "404 page not found\n" :=
  ⟨by decide, by decide, by decide, by decide,
    serve_missing [] getMissing (by decide) (by decide) (by decide) (by decide)⟩

/-- C6 (as stated) fails: the chain installed by main is not Logging around
CORS, and a preflight request, which the CORS middleware short-circuits, leaves
the preflight record alone in the log: no Run request record is emitted. -/
theorem serverHandler_preflight_counterexample :
    (serverHandler preflightAppV1 (World.fresh [])).logs
      = [{ level := .Info, msg := "preflight request",
           attrs := [("http_path", .str "/app-v1")] }] ∧
    (¬ ∃ rec, rec ∈ (serverHandler preflightAppV1 (World.fresh [])).logs ∧
        rec.msg = "Run request") ∧
    serverHandler preflightAppV1 (World.fresh [])
      ≠ withLogger (allowCORS mux) preflightAppV1 (World.fresh []) := by
  have hl : (serverHandler preflightAppV1 (World.fresh [])).logs
      = [{ level := .Info, msg := "preflight request",
           attrs := [("http_path", .str "/app-v1")] }] := by decide
  refine ⟨hl, ?_, by decide⟩
  rintro ⟨rec, hmem, hmsg⟩
  rw [hl] at hmem
  simp only [List.mem_singleton] at hmem
  subst hmem
  revert hmsg
  decide

/-- C6 (amended): the chain installed by main is the CORS middleware outermost,
the Logging middleware next and the route table innermost.  For every request
that the CORS middleware does not short-circuit (r1, not a preflight) and
whatever handler g stands innermost, allowCORS(withLogger(g)) is g run on the
world in which the Run request record, carrying the method and the URL, is
already in the log (and a non-empty Origin already reflected): the record is
emitted before the innermost handler runs.  With the route table innermost that
record is the only one the request adds.  A preflight request (r2) never
reaches the Logging middleware, whatever stands innermost: the only record it
adds is the preflight one. -/
theorem serverHandler_logging_order (g : Handler) (r1 r2 : Request) (s : World)
    (hnp : ¬ (Header.Get r1.Header "Origin" ≠ "" ∧ r1.Method = "OPTIONS" ∧
              Header.Get r1.Header "Access-Control-Request-Method" ≠ ""))
    (hm : r2.Method = "OPTIONS")
    (ho : Header.Get r2.Header "Origin" ≠ "")
    (ha : Header.Get r2.Header "Access-Control-Request-Method" ≠ "") :
    serverHandler = allowCORS (withLogger mux) ∧
    allowCORS (withLogger g) r1 s
      = g r1
          ((if Header.Get r1.Header "Origin" ≠ "" then
              s.headerSet "Access-Control-Allow-Origin" (Header.Get r1.Header "Origin")
            else s).slogInfo "Run request"
              [("http_method", .str r1.Method), ("http_url", .url r1.URL)]) ∧
    serverHandler r1 s
      = mux r1
          ((if Header.Get r1.Header "Origin" ≠ "" then
              s.headerSet "Access-Control-Allow-Origin" (Header.Get r1.Header "Origin")
            else s).slogInfo "Run request"
              [("http_method", .str r1.Method), ("http_url", .url r1.URL)]) ∧
    (serverHandler r1 s).logs
      = s.logs ++ [{ level := .Info, msg := "Run request",
                     attrs := [("http_method", .str r1.Method), ("http_url", .url r1.URL)] }] ∧
    (allowCORS (withLogger g) r2 s).logs
      = s.logs ++ [{ level := .Info, msg := "preflight request",
                     attrs := [("http_path", .str r2.URL.Path)] }] ∧
    (serverHandler r2 s).logs
      = s.logs ++ [{ level := .Info, msg := "preflight request",
                     attrs := [("http_path", .str r2.URL.Path)] }] := by
  have h1 : ∀ g1 : Handler, allowCORS (withLogger g1) r1 s
      = g1 r1
          ((if Header.Get r1.Header "Origin" ≠ "" then
              s.headerSet "Access-Control-Allow-Origin" (Header.Get r1.Header "Origin")
            else s).slogInfo "Run request"
              [("http_method", .str r1.Method), ("http_url", .url r1.URL)]) := by
    intro g1
    by_cases ho1 : Header.Get r1.Header "Origin" = ""
    · simp [allowCORS, withLogger, ho1]
    · have hnp2 : ¬ (r1.Method = "OPTIONS" ∧
          Header.Get r1.Header "Access-Control-Request-Method" ≠ "") :=
        fun h => hnp ⟨ho1, h.1, h.2⟩
      simp only [allowCORS, withLogger]
      rw [if_pos ho1, if_neg hnp2, if_pos ho1]
  refine ⟨rfl, h1 g, h1 mux, ?_, ?_, ?_⟩
  · have h2 : serverHandler r1 s = _ := h1 mux
    rw [h2, mux_logs]
    by_cases ho1 : Header.Get r1.Header "Origin" = "" <;>
      simp [ho1, World.slogInfo, World.headerSet]
  · rw [allowCORS_preflight_eq _ r2 s hm ho ha]
  · simp only [serverHandler]
    rw [allowCORS_preflight_eq _ r2 s hm ho ha]

/-- C6 (amended) at a cross-origin GET and at a preflight request, with an
innermost handler that writes how many records the log holds when it is
called: one at the GET (the Run request record is already there). -/
theorem serverHandler_logging_order_witness :
    ¬ (Header.Get getAppV1CrossOrigin.Header "Origin" ≠ "" ∧
        getAppV1CrossOrigin.Method = "OPTIONS" ∧
        Header.Get getAppV1CrossOrigin.Header "Access-Control-Request-Method" ≠ "") ∧
    preflightMissing.Method = "OPTIONS" ∧
    Header.Get preflightMissing.Header "Origin" ≠ "" ∧
    Header.Get preflightMissing.Header "Access-Control-Request-Method" ≠ "" ∧
    (allowCORS (withLogger logCount) getAppV1CrossOrigin (World.fresh [])).w.body = "1" ∧
    allowCORS (withLogger logCount) getAppV1CrossOrigin (World.fresh [])
      = logCount getAppV1CrossOrigin
          ((if Header.Get getAppV1CrossOrigin.Header "Origin" ≠ "" then
              (World.fresh []).headerSet "Access-Control-Allow-Origin"
                (Header.Get getAppV1CrossOrigin.Header "Origin")
            else World.fresh []).slogInfo "Run request"
              [("http_method", .str getAppV1CrossOrigin.Method),
               ("http_url", .url getAppV1CrossOrigin.URL)]) ∧
    (serverHandler preflightMissing (World.fresh [])).logs
      = [] ++ [{ level := .Info, msg := "preflight request",
                 attrs := [("http_path", .str "/missing")] }] :=
  ⟨by decide, by decide, by decide, by decide, by decide,
    (serverHandler_logging_order logCount getAppV1CrossOrigin preflightMissing (World.fresh [])
      (by decide) (by decide) (by decide) (by decide)).2.1,
    (serverHandler_logging_order logCount getAppV1CrossOrigin preflightMissing (World.fresh [])
      (by decide) (by decide) (by decide) (by decide)).2.2.2.2.2⟩

/-- C7 (the code): for every final status code (200 to 999) and every payload
whose marshalling fails with message e, the response that JSONResponse leaves on
a new writer keeps the status argument and Content-Type application/json,
because the status line is written before encoding; the WriteHeader(500) and the
plain-text Content-Type of http.Error come too late to be sent.  Only the body
carries the error message (when the status allows a body). -/
theorem JSONResponse_marshal_failure_keeps_status (logs : List LogRecord) (status : Int)
    (data : GoValue) (e : String)
    (hlo : 200 ≤ status) (hhi : status ≤ 999)
    (hm : jsonMarshal data = .error e) :
    finishRequest (JSONResponse (World.fresh logs) status data)
      = some { status := status,
               header := [("Content-Type", ["application/json"])],
               body := if bodyAllowedForStatus status then e ++ "\n" else "" } := by
  have h1 : ¬ (status < 100 ∨ status > 999) := by omega
  have h2 : ¬ (100 ≤ status ∧ status ≤ 199 ∧ status ≠ StatusSwitchingProtocols) := by omega
  have hn : "\n".length = 1 := by decide
  cases hb : bodyAllowedForStatus status <;>
    simp [JSONResponse, jsonEncode, hm, httpError, World.headerSet, World.headerDel,
      World.WriteHeader, World.Write, World.fresh, ResponseWriter.fresh, finishRequest,
      Header.Set, Header.Del, h1, h2, hb, hn, StatusInternalServerError]

/-- C7 at status 200 and a channel as payload: the response has status 200, not
500, and Content-Type application/json. -/
theorem JSONResponse_marshal_failure_keeps_status_witness :
    (200 : Int) ≤ StatusOK ∧ StatusOK ≤ 999 ∧
    jsonMarshal (.chan "int") = .error "json: unsupported type: chan int" ∧
    finishRequest (JSONResponse (World.fresh []) StatusOK (.chan "int"))
      = some { status := 200,
               header := [("Content-Type", ["application/json"])],
               body := "json: unsupported type: chan int\n" } :=
  ⟨by decide, by decide, rfl,
    JSONResponse_marshal_failure_keeps_status [] StatusOK (.chan "int")
      "json: unsupported type: chan int" (by decide) (by decide) rfl⟩

/-- C8 (the code): main emits the failed to listen and serve record when
ListenAndServe returns http.ErrServerClosed (also wrapped), and emits nothing
for any other listen error, such as a failed bind. -/
theorem main_logs_error_iff_server_closed :
    main .ErrServerClosed []
      = [{ level := .Info, msg := "start listening...",
           attrs := [("address", .str "0.0.0.0:8080")] },
         { level := .Error, msg := "failed to listen and serve",
           attrs := [("!BADKEY", .err .ErrServerClosed)] }] ∧
    main (.other "listen tcp 0.0.0.0:8080: bind: address already in use") []
      = [{ level := .Info, msg := "start listening...",
           attrs := [("address", .str "0.0.0.0:8080")] }] ∧
    (∀ (err : GoError) (logs : List LogRecord),
      listenErrorRecord err ∈ (main err logs).drop (logs.length + 1)
        ↔ errorsIs err .ErrServerClosed = true) := by
  refine ⟨by decide, by decide, ?_⟩
  intro err logs
  unfold main
  by_cases he : errorsIs err .ErrServerClosed = true
  · simp [he, List.drop_append]
  · simp [he]

end GoApp
